import Mathlib

/-!
Shallow embedding of `src/Physics/rocket_physics.c` (repository Andezion/StarTrek).

C `double` values are modelled as real numbers; `sqrt`, `exp`, `sin`, `cos`
are the real functions; the C constant `M_PI` is `Real.pi`.  Nullable C
pointers (`ControlCommand*`, `double* engine_throttle`) are `Option`s; the
paired (array, count) arguments are Lean lists.  Every function is translated
line by line from the C source with the same name.
-/

namespace StarTrek

noncomputable section

/-- `Vector3` from rocket_physics.h. -/
@[ext]
structure Vector3 where
  x : ℝ
  y : ℝ
  z : ℝ

/-- `Engine` from rocket_physics.h. -/
structure Engine where
  thrust : ℝ
  fuel_consumption : ℝ
  is_active : Bool

/-- `RocketConfig` from rocket_physics.h (the informational `name` and
`fuel_type` fields are dropped; `engines`/`engine_count` become one list). -/
structure RocketConfig where
  mass_empty : ℝ
  mass_fuel : ℝ
  mass_fuel_max : ℝ
  engines : List Engine
  drag_coefficient : ℝ
  cross_section : ℝ

/-- `PlanetConfig` from rocket_physics.h. -/
structure PlanetConfig where
  radius : ℝ
  mass : ℝ
  atmosphere_height : ℝ
  surface_pressure : ℝ
  scale_height : ℝ

/-- `GravityTurnConfig` from rocket_physics.h. -/
structure GravityTurnConfig where
  target_altitude : ℝ
  turn_start_alt : ℝ
  turn_end_alt : ℝ
  auto_pitch : Bool

/-- `OrbitPrediction` from rocket_physics.h. -/
structure OrbitPrediction where
  apoapsis : ℝ
  periapsis : ℝ
  eccentricity : ℝ
  orbital_velocity : ℝ
  required_velocity : ℝ
  is_stable : Bool

/-- `ControlCommand` from rocket_physics.h; the nullable
`engine_throttle`/`engine_count` pair becomes an optional list. -/
structure ControlCommand where
  engine_throttle : Option (List ℝ)
  pitch : ℝ
  yaw : ℝ
  roll : ℝ

/-- `RocketState` from rocket_physics.h. -/
@[ext]
structure RocketState where
  position : Vector3
  velocity : Vector3
  acceleration : Vector3
  altitude : ℝ
  speed : ℝ
  mass_current : ℝ
  fuel_remaining : ℝ
  in_orbit : Bool
  landed : Bool
  crashed : Bool
  time : ℝ

/-- `#define G_CONSTANT 6.674e-11`. -/
def G_CONSTANT : ℝ := 6.674e-11

/-- `#define EARTH_RADIUS 6371000`. -/
def EARTH_RADIUS : ℝ := 6371000

/-- `#define EARTH_MASS 5.972e24`. -/
def EARTH_MASS : ℝ := 5.972e24

/-- `#define EARTH_ATMOSPHERE 100000`. -/
def EARTH_ATMOSPHERE : ℝ := 100000

/-- `#define EARTH_SCALE_HEIGHT 8500`. -/
def EARTH_SCALE_HEIGHT : ℝ := 8500

/-- `vector_add` from rocket_physics.c. -/
def vector_add (a b : Vector3) : Vector3 := ⟨a.x + b.x, a.y + b.y, a.z + b.z⟩

/-- `vector_sub` from rocket_physics.c. -/
def vector_sub (a b : Vector3) : Vector3 := ⟨a.x - b.x, a.y - b.y, a.z - b.z⟩

/-- `vector_scale` from rocket_physics.c. -/
def vector_scale (v : Vector3) (scalar : ℝ) : Vector3 :=
  ⟨v.x * scalar, v.y * scalar, v.z * scalar⟩

/-- `vector_magnitude` from rocket_physics.c. -/
def vector_magnitude (v : Vector3) : ℝ :=
  Real.sqrt (v.x * v.x + v.y * v.y + v.z * v.z)

/-- `vector_normalize` from rocket_physics.c: below magnitude `1e-10` it
returns the zero vector. -/
def vector_normalize (v : Vector3) : Vector3 :=
  if vector_magnitude v < 1e-10 then ⟨0, 0, 0⟩
  else vector_scale v (1 / vector_magnitude v)

/-- `vector_dot` from rocket_physics.c. -/
def vector_dot (a b : Vector3) : ℝ := a.x * b.x + a.y * b.y + a.z * b.z

/-- `vector_cross` from rocket_physics.c. -/
def vector_cross (a b : Vector3) : Vector3 :=
  ⟨a.y * b.z - a.z * b.y, a.z * b.x - a.x * b.z, a.x * b.y - a.y * b.x⟩

/-- `rocket_init` from rocket_physics.c (allocation always succeeds in the
model, so the state is returned directly). -/
def rocket_init (config : RocketConfig) (initial_position : Vector3) : RocketState where
  position := initial_position
  velocity := ⟨0, 0, 0⟩
  acceleration := ⟨0, 0, 0⟩
  mass_current := config.mass_empty + config.mass_fuel
  fuel_remaining := config.mass_fuel
  altitude := vector_magnitude initial_position - EARTH_RADIUS
  speed := 0
  in_orbit := false
  landed := false
  crashed := false
  time := 0

/-- `calculate_gravity` from rocket_physics.c (Earth-fixed). -/
def calculate_gravity (position : Vector3) : Vector3 :=
  let distance := vector_magnitude position
  if distance < EARTH_RADIUS then ⟨0, 0, 0⟩
  else
    let gravity_magnitude := G_CONSTANT * EARTH_MASS / (distance * distance)
    vector_scale (vector_normalize position) (-gravity_magnitude)

/-- `calculate_drag` from rocket_physics.c (Earth-fixed): note the source
only tests `altitude > EARTH_ATMOSPHERE`; there is no lower altitude bound. -/
def calculate_drag (state : RocketState) (config : RocketConfig) : Vector3 :=
  if state.altitude > EARTH_ATMOSPHERE then ⟨0, 0, 0⟩
  else
    let rho : ℝ := 1.225 * Real.exp (-state.altitude / 8500)
    let velocity_magnitude := vector_magnitude state.velocity
    if velocity_magnitude < 1e-6 then ⟨0, 0, 0⟩
    else
      let drag_force := 0.5 * rho * velocity_magnitude * velocity_magnitude *
        config.drag_coefficient * config.cross_section
      vector_scale (vector_normalize state.velocity) (-drag_force)

/-- The summed `thrust * throttle` loop of `calculate_thrust`, over the
engines paired with the throttle entries (the C loop bound
`i < config->engine_count && i < command->engine_count` is the zip). -/
def engine_thrust_total (engines : List Engine) (throttles : List ℝ) : ℝ :=
  (engines.zip throttles).foldl
    (fun acc p => acc + (if p.1.is_active then p.1.thrust * p.2 else 0)) 0

/-- The total commanded thrust magnitude, 0 when the command or its throttle
array is NULL (mirrors the guards of `calculate_thrust`). -/
def thrust_sum (config : RocketConfig) (command : Option ControlCommand) : ℝ :=
  match command with
  | none => 0
  | some cmd =>
    match cmd.engine_throttle with
    | none => 0
    | some throttles => engine_thrust_total config.engines throttles

/-- `calculate_thrust` from rocket_physics.c. -/
def calculate_thrust (config : RocketConfig) (command : Option ControlCommand)
    (position : Vector3) : Vector3 :=
  match command with
  | none => ⟨0, 0, 0⟩
  | some cmd =>
    match cmd.engine_throttle with
    | none => ⟨0, 0, 0⟩
    | some throttles =>
      let thrust_magnitude := engine_thrust_total config.engines throttles
      if thrust_magnitude < 1e-6 then ⟨0, 0, 0⟩
      else
        let radial_up := vector_normalize position
        let z_axis : Vector3 := ⟨0, 0, 1⟩
        let east0 := vector_cross radial_up z_axis
        let east1 :=
          if vector_magnitude east0 < 0.01 then
            vector_cross radial_up ⟨1, 0, 0⟩
          else east0
        let east := vector_normalize east1
        let pitch_rad := cmd.pitch * Real.pi / 180
        let thrust_dir : Vector3 :=
          ⟨radial_up.x * Real.cos pitch_rad + east.x * Real.sin pitch_rad,
           radial_up.y * Real.cos pitch_rad + east.y * Real.sin pitch_rad,
           radial_up.z * Real.cos pitch_rad + east.z * Real.sin pitch_rad⟩
        vector_scale thrust_dir thrust_magnitude

/-- The summed `fuel_consumption * throttle * delta_time` loop of
`calculate_fuel_consumption`. -/
def engine_fuel_total (engines : List Engine) (throttles : List ℝ)
    (delta_time : ℝ) : ℝ :=
  (engines.zip throttles).foldl
    (fun acc p =>
      acc + (if p.1.is_active then p.1.fuel_consumption * p.2 * delta_time else 0)) 0

/-- `calculate_fuel_consumption` from rocket_physics.c. -/
def calculate_fuel_consumption (config : RocketConfig)
    (command : Option ControlCommand) (delta_time : ℝ) : ℝ :=
  match command with
  | none => 0
  | some cmd =>
    match cmd.engine_throttle with
    | none => 0
    | some throttles => engine_fuel_total config.engines throttles delta_time

/-- `check_ground_collision` from rocket_physics.c (as the predicate the C
bool computes). -/
def check_ground_collision (state : RocketState) : Prop :=
  vector_magnitude state.position ≤ EARTH_RADIUS

instance (state : RocketState) : Decidable (check_ground_collision state) :=
  Real.decidableLE _ _

/-- `check_orbital_stability` from rocket_physics.c (the speed-ratio
heuristic used by the Earth-fixed step). -/
def check_orbital_stability (state : RocketState) : Bool :=
  if state.altitude < EARTH_ATMOSPHERE then false
  else
    let distance := vector_magnitude state.position
    let orbital_speed := Real.sqrt (G_CONSTANT * EARTH_MASS / distance)
    if state.speed / orbital_speed ≥ 0.9 ∧ state.speed / orbital_speed ≤ 1.1 then
      true
    else false

/-- `rocket_update` from rocket_physics.c, as a function on states. -/
def rocket_update (state : RocketState) (config : RocketConfig)
    (command : Option ControlCommand) (delta_time : ℝ) : RocketState :=
  if state.landed || state.crashed then state
  else
    let gravity_force := calculate_gravity state.position
    let drag_force := calculate_drag state config
    let thrust_force := calculate_thrust config command state.position
    let total_force := vector_add (vector_add gravity_force drag_force) thrust_force
    let acceleration :=
      if state.mass_current > 0 then vector_scale total_force (1 / state.mass_current)
      else (⟨0, 0, 0⟩ : Vector3)
    let velocity := vector_add state.velocity (vector_scale acceleration delta_time)
    let speed := vector_magnitude velocity
    let position := vector_add state.position (vector_scale velocity delta_time)
    let fuel0 := state.fuel_remaining - calculate_fuel_consumption config command delta_time
    let fuel_remaining := if fuel0 < 0 then 0 else fuel0
    let mass_current := config.mass_empty + fuel_remaining
    let distance := vector_magnitude position
    let altitude := distance - EARTH_RADIUS
    let s1 : RocketState :=
      { state with
        position := position, velocity := velocity, acceleration := acceleration,
        speed := speed, fuel_remaining := fuel_remaining,
        mass_current := mass_current, altitude := altitude }
    if check_ground_collision s1 then
      if s1.speed < 5 then
        { s1 with landed := true, velocity := ⟨0, 0, 0⟩, acceleration := ⟨0, 0, 0⟩ }
      else
        { s1 with crashed := true, velocity := ⟨0, 0, 0⟩, acceleration := ⟨0, 0, 0⟩ }
    else
      { s1 with
        in_orbit := check_orbital_stability s1
        time := state.time + delta_time }

/-- `planet_earth_default` from rocket_physics.c. -/
def planet_earth_default : PlanetConfig where
  radius := EARTH_RADIUS
  mass := EARTH_MASS
  atmosphere_height := EARTH_ATMOSPHERE
  surface_pressure := 1
  scale_height := EARTH_SCALE_HEIGHT

/-- `planet_create` from rocket_physics.c. -/
def planet_create (radius mass atmosphere_height surface_pressure scale_height : ℝ) :
    PlanetConfig :=
  ⟨radius, mass, atmosphere_height, surface_pressure, scale_height⟩

/-- `orbital_velocity_at_altitude` from rocket_physics.c. -/
def orbital_velocity_at_altitude (planet : PlanetConfig) (altitude : ℝ) : ℝ :=
  Real.sqrt (G_CONSTANT * planet.mass / (planet.radius + altitude))

/-- `gravity_turn_for_orbit` from rocket_physics.c. -/
def gravity_turn_for_orbit (planet : PlanetConfig) (target_orbit_altitude : ℝ) :
    GravityTurnConfig :=
  let turn_start_alt := max (target_orbit_altitude * 0.01) 1000
  let turn_end0 := target_orbit_altitude * 0.7
  let turn_end_alt :=
    if turn_end0 < planet.atmosphere_height * 0.5 then planet.atmosphere_height * 0.5
    else turn_end0
  { target_altitude := target_orbit_altitude, turn_start_alt := turn_start_alt,
    turn_end_alt := turn_end_alt, auto_pitch := true }

/-- `calculate_optimal_pitch` from rocket_physics.c. -/
def calculate_optimal_pitch (state : RocketState) (_planet : PlanetConfig)
    (gt_config : GravityTurnConfig) : ℝ :=
  if gt_config.auto_pitch = false then 0
  else
    let alt := state.altitude
    let start := gt_config.turn_start_alt
    let stop := gt_config.turn_end_alt
    if alt < start then 0
    else if alt ≥ stop then 90
    else
      let progress := (alt - start) / (stop - start)
      Real.sin (progress * Real.pi / 2) * 90

/-- The specific orbital energy computed at the top of `predict_orbit`:
`v*v/2 - mu/r` with `r = |position|`, `v = state->speed`. -/
def orbit_energy (state : RocketState) (planet : PlanetConfig) : ℝ :=
  state.speed * state.speed / 2 -
    G_CONSTANT * planet.mass / vector_magnitude state.position

/-- The semi-major axis of `predict_orbit`: `none` encodes the C value
`INFINITY` taken when `|specific_energy| < 1e-10`. -/
def orbit_semimajor (state : RocketState) (planet : PlanetConfig) : Option ℝ :=
  if |orbit_energy state planet| < 1e-10 then none
  else some (-(G_CONSTANT * planet.mass) / (2 * orbit_energy state planet))

/-- The eccentricity of `predict_orbit`: 1 in the parabolic (`INFINITY`)
case, else `sqrt (max 0 (1 - h^2/(mu a)))` with
`h = |position x velocity|`. -/
def orbit_ecc (state : RocketState) (planet : PlanetConfig) : ℝ :=
  match orbit_semimajor state planet with
  | none => 1
  | some a =>
    let mu := G_CONSTANT * planet.mass
    let h := vector_magnitude (vector_cross state.position state.velocity)
    let e_sq := 1 - h * h / (mu * a)
    Real.sqrt (if e_sq < 0 then 0 else e_sq)

/-- `predict_orbit` from rocket_physics.c.  In the C code the `INFINITY`
semi-major axis (`orbit_semimajor = none`) forces `eccentricity = 1`, so the
test `eccentricity < 1 && a > 0` fails and the sentinel branch is taken. -/
def predict_orbit (state : RocketState) (planet : PlanetConfig) : OrbitPrediction :=
  let ecc := orbit_ecc state planet
  let apo_peri : ℝ × ℝ :=
    match orbit_semimajor state planet with
    | some a =>
      if ecc < 1 ∧ a > 0 then
        (a * (1 + ecc) - planet.radius, a * (1 - ecc) - planet.radius)
      else (-1, state.altitude)
    | none => (-1, state.altitude)
  { apoapsis := apo_peri.1
    periapsis := apo_peri.2
    eccentricity := ecc
    orbital_velocity := state.speed
    required_velocity := orbital_velocity_at_altitude planet state.altitude
    is_stable :=
      if apo_peri.2 > planet.atmosphere_height ∧ ecc < 1 then true else false }

/-- The inline gravity computation of `rocket_update_with_planet`
(zero unless `distance > planet->radius`, strictly). -/
def gravity_with_planet (position : Vector3) (planet : PlanetConfig) : Vector3 :=
  let distance := vector_magnitude position
  if distance > planet.radius then
    vector_scale (vector_normalize position)
      (-(G_CONSTANT * planet.mass / (distance * distance)))
  else ⟨0, 0, 0⟩

/-- The inline drag computation of `rocket_update_with_planet`
(active only for `0 < altitude < atmosphere_height` and `speed > 1e-6`). -/
def drag_with_planet (state : RocketState) (config : RocketConfig)
    (planet : PlanetConfig) : Vector3 :=
  if state.altitude < planet.atmosphere_height ∧ state.altitude > 0 then
    let rho := planet.surface_pressure * 1.225 * Real.exp (-state.altitude / planet.scale_height)
    let velocity_magnitude := vector_magnitude state.velocity
    if velocity_magnitude > 1e-6 then
      vector_scale (vector_normalize state.velocity)
        (-(0.5 * rho * velocity_magnitude * velocity_magnitude *
            config.drag_coefficient * config.cross_section))
    else ⟨0, 0, 0⟩
  else ⟨0, 0, 0⟩

/-- `rocket_update_with_planet` from rocket_physics.c. -/
def rocket_update_with_planet (state : RocketState) (config : RocketConfig)
    (command : Option ControlCommand) (planet : PlanetConfig)
    (delta_time : ℝ) : RocketState :=
  if state.landed || state.crashed then state
  else
    let gravity_force := gravity_with_planet state.position planet
    let drag_force := drag_with_planet state config planet
    let thrust_force := calculate_thrust config command state.position
    let total_force := vector_add (vector_add gravity_force drag_force) thrust_force
    let acceleration :=
      if state.mass_current > 0 then vector_scale total_force (1 / state.mass_current)
      else (⟨0, 0, 0⟩ : Vector3)
    let velocity := vector_add state.velocity (vector_scale acceleration delta_time)
    let speed := vector_magnitude velocity
    let position := vector_add state.position (vector_scale velocity delta_time)
    let fuel0 := state.fuel_remaining - calculate_fuel_consumption config command delta_time
    let fuel_remaining := if fuel0 < 0 then 0 else fuel0
    let mass_current := config.mass_empty + fuel_remaining
    let distance := vector_magnitude position
    let altitude := distance - planet.radius
    let s1 : RocketState :=
      { state with
        position := position, velocity := velocity, acceleration := acceleration,
        speed := speed, fuel_remaining := fuel_remaining,
        mass_current := mass_current, altitude := altitude }
    if distance ≤ planet.radius then
      if s1.speed < 5 then
        { s1 with landed := true, velocity := ⟨0, 0, 0⟩, acceleration := ⟨0, 0, 0⟩ }
      else
        { s1 with crashed := true, velocity := ⟨0, 0, 0⟩, acceleration := ⟨0, 0, 0⟩ }
    else
      { s1 with
        in_orbit := (predict_orbit s1 planet).is_stable
        time := state.time + delta_time }

/-- One tick of driver input: a command, an optional planet (`none` selects
the Earth-fixed `rocket_update`, `some p` the generalized
`rocket_update_with_planet`), and the time step. -/
structure StepInput where
  command : Option ControlCommand
  planet : Option PlanetConfig
  delta_time : ℝ

/-- Dispatch one step to `rocket_update` or `rocket_update_with_planet`. -/
def step_any (config : RocketConfig) (s : RocketState) (inp : StepInput) : RocketState :=
  match inp.planet with
  | none => rocket_update s config inp.command inp.delta_time
  | some p => rocket_update_with_planet s config inp.command p inp.delta_time

/-- The list of states visited by a run: the initial state followed by the
state after each step. -/
def state_trace (config : RocketConfig) (s : RocketState)
    (inputs : List StepInput) : List RocketState :=
  inputs.scanl (step_any config) s

/-- Every throttle entry of the input lies in `[0, 1]` and the time step is
nonnegative. -/
def input_ok (inp : StepInput) : Prop :=
  0 ≤ inp.delta_time ∧
  ∀ cmd, inp.command = some cmd → ∀ th, cmd.engine_throttle = some th →
    ∀ t ∈ th, 0 ≤ t ∧ t ≤ 1

/-- Every engine burns a nonnegative amount of fuel per second. -/
def config_fuel_ok (config : RocketConfig) : Prop :=
  ∀ e ∈ config.engines, 0 ≤ e.fuel_consumption

/-! ## Small helpers -/

theorem bool_ite_eq_true_iff (c : Prop) [Decidable c] :
    (if c then true else false) = true ↔ c := by
  split_ifs with h <;> simp [h]

theorem magnitude_axis_x (r : ℝ) (h : 0 ≤ r) : vector_magnitude ⟨r, 0, 0⟩ = r := by
  unfold vector_magnitude
  rw [show (r * r + 0 * 0 + 0 * 0 : ℝ) = r * r by ring]
  exact Real.sqrt_mul_self h

theorem magnitude_axis_y (r : ℝ) (h : 0 ≤ r) : vector_magnitude ⟨0, r, 0⟩ = r := by
  unfold vector_magnitude
  rw [show (0 * 0 + r * r + 0 * 0 : ℝ) = r * r by ring]
  exact Real.sqrt_mul_self h

theorem vector_scale_zero (v : Vector3) : vector_scale v 0 = ⟨0, 0, 0⟩ := by
  simp [vector_scale]

theorem vector_scale_zero_vec (r : ℝ) : vector_scale ⟨0, 0, 0⟩ r = ⟨0, 0, 0⟩ := by
  simp [vector_scale]

theorem vector_add_zero_right (v : Vector3) : vector_add v ⟨0, 0, 0⟩ = v := by
  simp [vector_add]

theorem magnitude_zero_vec : vector_magnitude ⟨0, 0, 0⟩ = 0 := by
  unfold vector_magnitude
  rw [show ((0:ℝ) * 0 + 0 * 0 + 0 * 0 : ℝ) = 0 by norm_num, Real.sqrt_zero]

/-! ## Concrete sample objects used by witnesses and counterexamples -/

/-- A one-engine vehicle used in concrete instances. -/
def sampleConfig : RocketConfig :=
  { mass_empty := 1000, mass_fuel := 100, mass_fuel_max := 100,
    engines := [⟨500, 2, true⟩], drag_coefficient := 0.5, cross_section := 10 }

/-- A full-throttle command for `sampleConfig`. -/
def sampleCommand : ControlCommand := ⟨some [1], 0, 0, 0⟩

/-- A state that has already landed. -/
def landedState : RocketState :=
  { position := ⟨EARTH_RADIUS, 0, 0⟩, velocity := ⟨0, 0, 0⟩
    acceleration := ⟨0, 0, 0⟩, altitude := 0, speed := 0
    mass_current := 1100, fuel_remaining := 100
    in_orbit := false, landed := true, crashed := false, time := 42 }

/-- An airborne state with `mass_current = 0`. -/
def masslessState : RocketState :=
  { position := ⟨EARTH_RADIUS + 1000, 0, 0⟩, velocity := ⟨0, 0, 0⟩
    acceleration := ⟨0, 0, 0⟩, altitude := 1000, speed := 0
    mass_current := 0, fuel_remaining := 0
    in_orbit := false, landed := false, crashed := false, time := 0 }

/-! ## Claims -/

/-- C1: once `landed` or `crashed` is true, `rocket_update` and
`rocket_update_with_planet` leave the entire state unchanged, for any
config, command, planet and delta_time. -/
theorem C1_terminal_step_noop (state : RocketState) (config : RocketConfig)
    (command : Option ControlCommand) (planet : PlanetConfig) (delta_time : ℝ)
    (h : state.landed = true ∨ state.crashed = true) :
    rocket_update state config command delta_time = state ∧
    rocket_update_with_planet state config command planet delta_time = state := by
  have hb : (state.landed || state.crashed) = true := by
    rcases h with h | h <;> simp [h]
  exact ⟨by unfold rocket_update; rw [if_pos hb],
         by unfold rocket_update_with_planet; rw [if_pos hb]⟩

/-- Witness for C1 at a concrete landed state and concrete inputs. -/
theorem C1_terminal_step_noop_witness :
    rocket_update landedState sampleConfig (some sampleCommand) 1 = landedState ∧
    rocket_update_with_planet landedState sampleConfig (some sampleCommand)
      planet_earth_default 1 = landedState :=
  C1_terminal_step_noop landedState sampleConfig (some sampleCommand)
    planet_earth_default 1 (Or.inl rfl)

/-- C9: in both step functions, if `mass_current` is not positive the
acceleration is set to the zero vector instead of dividing by the mass, and
the step still returns a state. -/
theorem C9_zero_mass_zero_acceleration (state : RocketState) (config : RocketConfig)
    (command : Option ControlCommand) (planet : PlanetConfig) (delta_time : ℝ)
    (hl : state.landed = false) (hc : state.crashed = false)
    (hm : state.mass_current ≤ 0) :
    (rocket_update state config command delta_time).acceleration = ⟨0, 0, 0⟩ ∧
    (rocket_update_with_planet state config command planet delta_time).acceleration
      = ⟨0, 0, 0⟩ := by
  have hm' : ¬ (state.mass_current > 0) := not_lt.mpr hm
  constructor
  · simp only [rocket_update, hl, hc, Bool.or_self, Bool.false_eq_true, if_false,
      if_neg hm']
    split_ifs <;> rfl
  · simp only [rocket_update_with_planet, hl, hc, Bool.or_self, Bool.false_eq_true,
      if_false, if_neg hm']
    split_ifs <;> rfl

/-- Witness for C9 at a concrete airborne state with zero mass. -/
theorem C9_zero_mass_zero_acceleration_witness :
    (rocket_update masslessState sampleConfig (some sampleCommand) 1).acceleration
      = ⟨0, 0, 0⟩ ∧
    (rocket_update_with_planet masslessState sampleConfig (some sampleCommand)
      planet_earth_default 1).acceleration = ⟨0, 0, 0⟩ :=
  C9_zero_mass_zero_acceleration masslessState sampleConfig (some sampleCommand)
    planet_earth_default 1 rfl rfl le_rfl

/-- C10: on a step that first sets `landed` or `crashed`, `time` is not
advanced; on a step whose result stays airborne, `time` advances by exactly
`delta_time` — for both step functions. -/
theorem C10_time_frozen_on_grounding (state : RocketState) (config : RocketConfig)
    (command : Option ControlCommand) (planet : PlanetConfig) (delta_time : ℝ)
    (hl : state.landed = false) (hc : state.crashed = false) :
    (((rocket_update state config command delta_time).landed = true ∨
      (rocket_update state config command delta_time).crashed = true) →
      (rocket_update state config command delta_time).time = state.time) ∧
    ((rocket_update state config command delta_time).landed = false →
      (rocket_update state config command delta_time).crashed = false →
      (rocket_update state config command delta_time).time = state.time + delta_time) ∧
    (((rocket_update_with_planet state config command planet delta_time).landed = true ∨
      (rocket_update_with_planet state config command planet delta_time).crashed = true) →
      (rocket_update_with_planet state config command planet delta_time).time = state.time) ∧
    ((rocket_update_with_planet state config command planet delta_time).landed = false →
      (rocket_update_with_planet state config command planet delta_time).crashed = false →
      (rocket_update_with_planet state config command planet delta_time).time
        = state.time + delta_time) := by
  refine ⟨?_, ?_, ?_, ?_⟩ <;>
    simp only [rocket_update, rocket_update_with_planet, hl, hc, Bool.or_self,
      Bool.false_eq_true, if_false] <;>
    split_ifs <;> simp_all

/-- Witness for C10: a concrete airborne step that stays airborne advances
time by exactly delta_time. -/
theorem C10_time_frozen_on_grounding_witness :
    (rocket_update_with_planet masslessState sampleConfig none
      planet_earth_default 1).time = masslessState.time + 1 := by
  have heval : (rocket_update_with_planet masslessState sampleConfig none
      planet_earth_default 1).landed = false ∧
      (rocket_update_with_planet masslessState sampleConfig none
      planet_earth_default 1).crashed = false := by
    have hmag : vector_magnitude masslessState.position = EARTH_RADIUS + 1000 := by
      have h2 := magnitude_axis_x (EARTH_RADIUS + 1000) (by norm_num [EARTH_RADIUS])
      simpa [masslessState] using h2
    have hvel0 : masslessState.velocity = (⟨0, 0, 0⟩ : Vector3) := rfl
    constructor <;>
    · simp only [rocket_update_with_planet]
      rw [if_neg (by simp [masslessState] :
        ¬((masslessState.landed || masslessState.crashed) = true))]
      rw [if_neg (by norm_num [masslessState] : ¬(masslessState.mass_current > 0))]
      rw [hvel0, vector_scale_zero_vec, vector_add_zero_right,
        vector_scale_zero_vec, vector_add_zero_right, hmag]
      rw [if_neg (by norm_num [planet_earth_default, EARTH_RADIUS] :
        ¬(EARTH_RADIUS + 1000 ≤ planet_earth_default.radius))]
      rfl
  exact (C10_time_frozen_on_grounding masslessState sampleConfig none
    planet_earth_default 1 rfl rfl).2.2.2 heval.1 heval.2

/-! ## Fuel bookkeeping lemmas -/

theorem rocket_update_fuel (s : RocketState) (config : RocketConfig)
    (command : Option ControlCommand) (dt : ℝ) :
    (rocket_update s config command dt).fuel_remaining =
      if s.landed || s.crashed then s.fuel_remaining
      else if s.fuel_remaining - calculate_fuel_consumption config command dt < 0 then 0
      else s.fuel_remaining - calculate_fuel_consumption config command dt := by
  simp only [rocket_update]
  split_ifs <;> rfl

theorem rocket_update_with_planet_fuel (s : RocketState) (config : RocketConfig)
    (command : Option ControlCommand) (planet : PlanetConfig) (dt : ℝ) :
    (rocket_update_with_planet s config command planet dt).fuel_remaining =
      if s.landed || s.crashed then s.fuel_remaining
      else if s.fuel_remaining - calculate_fuel_consumption config command dt < 0 then 0
      else s.fuel_remaining - calculate_fuel_consumption config command dt := by
  simp only [rocket_update_with_planet]
  split_ifs <;> rfl

theorem rocket_update_mass (s : RocketState) (config : RocketConfig)
    (command : Option ControlCommand) (dt : ℝ) :
    (rocket_update s config command dt).mass_current =
      if s.landed || s.crashed then s.mass_current
      else config.mass_empty + (rocket_update s config command dt).fuel_remaining := by
  rw [rocket_update_fuel]
  simp only [rocket_update]
  split_ifs <;> rfl

theorem rocket_update_with_planet_mass (s : RocketState) (config : RocketConfig)
    (command : Option ControlCommand) (planet : PlanetConfig) (dt : ℝ) :
    (rocket_update_with_planet s config command planet dt).mass_current =
      if s.landed || s.crashed then s.mass_current
      else config.mass_empty +
        (rocket_update_with_planet s config command planet dt).fuel_remaining := by
  rw [rocket_update_with_planet_fuel]
  simp only [rocket_update_with_planet]
  split_ifs <;> rfl

theorem step_any_fuel (config : RocketConfig) (s : RocketState) (inp : StepInput) :
    (step_any config s inp).fuel_remaining =
      if s.landed || s.crashed then s.fuel_remaining
      else if s.fuel_remaining -
          calculate_fuel_consumption config inp.command inp.delta_time < 0 then 0
      else s.fuel_remaining -
          calculate_fuel_consumption config inp.command inp.delta_time := by
  rcases inp with ⟨command, planet, dt⟩
  cases planet with
  | none => exact rocket_update_fuel s config command dt
  | some p => exact rocket_update_with_planet_fuel s config command p dt

theorem step_any_mass (config : RocketConfig) (s : RocketState) (inp : StepInput) :
    (step_any config s inp).mass_current =
      if s.landed || s.crashed then s.mass_current
      else config.mass_empty + (step_any config s inp).fuel_remaining := by
  rcases inp with ⟨command, planet, dt⟩
  cases planet with
  | none => exact rocket_update_mass s config command dt
  | some p => exact rocket_update_with_planet_mass s config command p dt

theorem engine_fuel_total_nonneg (engines : List Engine) (th : List ℝ) (dt : ℝ)
    (hdt : 0 ≤ dt) (he : ∀ e ∈ engines, 0 ≤ e.fuel_consumption)
    (ht : ∀ t ∈ th, 0 ≤ t) : 0 ≤ engine_fuel_total engines th dt := by
  unfold engine_fuel_total
  have key : ∀ (l : List (Engine × ℝ)),
      (∀ p ∈ l, 0 ≤ p.1.fuel_consumption ∧ 0 ≤ p.2) →
      ∀ init : ℝ, 0 ≤ init →
      0 ≤ l.foldl
        (fun acc p =>
          acc + (if p.1.is_active then p.1.fuel_consumption * p.2 * dt else 0)) init := by
    intro l
    induction l with
    | nil => intro _ init hi; simpa using hi
    | cons a t ih =>
      intro hl init hi
      simp only [List.foldl_cons]
      refine ih (fun p hp => hl p (List.mem_cons_of_mem a hp)) _ ?_
      have ha := hl a (List.mem_cons_self a t)
      have hstep : (0:ℝ) ≤ if a.1.is_active then a.1.fuel_consumption * a.2 * dt else 0 := by
        split_ifs
        · exact mul_nonneg (mul_nonneg ha.1 ha.2) hdt
        · exact le_refl 0
      linarith
  refine key _ (fun p hp => ?_) 0 le_rfl
  obtain ⟨h1, h2⟩ := List.of_mem_zip hp
  exact ⟨he p.1 h1, ht p.2 h2⟩

theorem calculate_fuel_consumption_nonneg (config : RocketConfig)
    (command : Option ControlCommand) (dt : ℝ)
    (hcfg : config_fuel_ok config)
    (hcmd : ∀ cmd, command = some cmd → ∀ th, cmd.engine_throttle = some th →
      ∀ t ∈ th, 0 ≤ t ∧ t ≤ 1)
    (hdt : 0 ≤ dt) :
    0 ≤ calculate_fuel_consumption config command dt := by
  rcases command with _ | cmd
  · simp [calculate_fuel_consumption]
  · rcases hth : cmd.engine_throttle with _ | th
    · simp [calculate_fuel_consumption, hth]
    · simp only [calculate_fuel_consumption, hth]
      exact engine_fuel_total_nonneg config.engines th dt hdt hcfg
        (fun t ht => (hcmd cmd rfl th hth t ht).1)

theorem state_trace_head (config : RocketConfig) (s : RocketState)
    (inputs : List StepInput) : (state_trace config s inputs).head? = some s := by
  cases inputs <;> simp [state_trace]

theorem step_any_fuel_invariant (config : RocketConfig) (s : RocketState)
    (inp : StepInput) (hcfg : config_fuel_ok config) (hin : input_ok inp)
    (h1 : 0 ≤ s.fuel_remaining)
    (h2 : s.mass_current = config.mass_empty + s.fuel_remaining) :
    (step_any config s inp).fuel_remaining ≤ s.fuel_remaining ∧
    0 ≤ (step_any config s inp).fuel_remaining ∧
    (step_any config s inp).mass_current =
      config.mass_empty + (step_any config s inp).fuel_remaining := by
  have hcons : 0 ≤ calculate_fuel_consumption config inp.command inp.delta_time :=
    calculate_fuel_consumption_nonneg config inp.command inp.delta_time hcfg
      hin.2 hin.1
  rw [step_any_mass, step_any_fuel]
  split_ifs with hterm hneg
  · exact ⟨le_refl _, h1, h2⟩
  · exact ⟨h1, le_refl 0, rfl⟩
  · exact ⟨by linarith, by linarith, rfl⟩

theorem trace_fuel_aux (config : RocketConfig) (hcfg : config_fuel_ok config) :
    ∀ (inputs : List StepInput) (s : RocketState),
      (∀ inp ∈ inputs, input_ok inp) →
      0 ≤ s.fuel_remaining →
      s.mass_current = config.mass_empty + s.fuel_remaining →
      (state_trace config s inputs).Chain'
        (fun a b => b.fuel_remaining ≤ a.fuel_remaining) ∧
      ∀ st ∈ state_trace config s inputs,
        0 ≤ st.fuel_remaining ∧
        st.mass_current = config.mass_empty + st.fuel_remaining := by
  intro inputs
  induction inputs with
  | nil =>
    intro s _ h1 h2
    refine ⟨by simp [state_trace], ?_⟩
    intro st hst
    simp only [state_trace, List.scanl_nil, List.mem_singleton] at hst
    subst hst
    exact ⟨h1, h2⟩
  | cons i t ih =>
    intro s hin h1 h2
    have hstep := step_any_fuel_invariant config s i hcfg
      (hin i (List.mem_cons_self i t)) h1 h2
    have ihres := ih (step_any config s i)
      (fun j hj => hin j (List.mem_cons_of_mem i hj)) hstep.2.1 hstep.2.2
    have htr : state_trace config s (i :: t) =
        s :: state_trace config (step_any config s i) t := by
      simp [state_trace, List.scanl_cons]
    constructor
    · rw [htr, List.chain'_cons']
      refine ⟨?_, ihres.1⟩
      intro hsucc hmem
      rw [state_trace_head] at hmem
      cases hmem
      exact hstep.1
    · intro st hst
      rw [htr] at hst
      rcases List.mem_cons.mp hst with hst | hst
      · subst hst; exact ⟨h1, h2⟩
      · exact ihres.2 st hst

/-- A vehicle whose single engine has negative fuel consumption. -/
def negConsumptionConfig : RocketConfig :=
  { mass_empty := 1000, mass_fuel := 100, mass_fuel_max := 100,
    engines := [⟨0, -1, true⟩], drag_coefficient := 0, cross_section := 0 }

/-- C2 counterexample: with an engine whose `fuel_consumption` is `-1`, a
full-throttle step (throttle 1 in [0,1], delta_time 1 nonnegative) from the
initialized state raises `fuel_remaining` from 100 to 101, so fuel is not
non-increasing as the claim states. -/
theorem C2_counterexample :
    (0:ℝ) ≤ 1 ∧ (1:ℝ) ≤ 1 ∧
    (rocket_init negConsumptionConfig ⟨EARTH_RADIUS + 1000, 0, 0⟩).fuel_remaining
      = 100 ∧
    (rocket_update (rocket_init negConsumptionConfig ⟨EARTH_RADIUS + 1000, 0, 0⟩)
      negConsumptionConfig (some sampleCommand) 1).fuel_remaining = 101 := by
  refine ⟨by norm_num, by norm_num, rfl, ?_⟩
  rw [rocket_update_fuel]
  norm_num [rocket_init, negConsumptionConfig, sampleCommand,
    calculate_fuel_consumption, engine_fuel_total]

/-- C2 (amended): for every run from an initialized state, with every
engine's fuel consumption nonnegative, the initial fuel load nonnegative,
every throttle entry in [0,1] and every delta_time nonnegative (steps taken
by either step function), `fuel_remaining` is non-increasing along the trace
and never negative, and `mass_current = mass_empty + fuel_remaining` holds
at every state of the trace. -/
theorem C2_fuel_monotone (config : RocketConfig) (initial_position : Vector3)
    (inputs : List StepInput)
    (hcfg : config_fuel_ok config) (hfuel : 0 ≤ config.mass_fuel)
    (hin : ∀ inp ∈ inputs, input_ok inp) :
    (state_trace config (rocket_init config initial_position) inputs).Chain'
      (fun a b => b.fuel_remaining ≤ a.fuel_remaining) ∧
    ∀ st ∈ state_trace config (rocket_init config initial_position) inputs,
      0 ≤ st.fuel_remaining ∧
      st.mass_current = config.mass_empty + st.fuel_remaining :=
  trace_fuel_aux config hcfg inputs (rocket_init config initial_position)
    hin hfuel rfl

/-- Witness for C2 at a concrete config and a concrete two-step run. -/
theorem C2_fuel_monotone_witness :
    (state_trace sampleConfig
        (rocket_init sampleConfig ⟨EARTH_RADIUS + 1000, 0, 0⟩)
        [⟨some sampleCommand, none, 1⟩, ⟨none, some planet_earth_default, 1⟩]).Chain'
      (fun a b => b.fuel_remaining ≤ a.fuel_remaining) ∧
    ∀ st ∈ state_trace sampleConfig
        (rocket_init sampleConfig ⟨EARTH_RADIUS + 1000, 0, 0⟩)
        [⟨some sampleCommand, none, 1⟩, ⟨none, some planet_earth_default, 1⟩],
      0 ≤ st.fuel_remaining ∧
      st.mass_current = sampleConfig.mass_empty + st.fuel_remaining := by
  refine C2_fuel_monotone sampleConfig ⟨EARTH_RADIUS + 1000, 0, 0⟩ _ ?_ ?_ ?_
  · intro e he
    simp only [sampleConfig, List.mem_singleton] at he
    subst he
    norm_num
  · norm_num [sampleConfig]
  · intro inp hinp
    rcases List.mem_cons.mp hinp with h | h
    · subst h
      refine ⟨by norm_num, ?_⟩
      intro cmd hc th hth t ht
      cases hc
      simp only [sampleCommand, Option.some.injEq] at hth
      subst hth
      simp only [List.mem_singleton] at ht
      subst ht
      norm_num
    · simp only [List.mem_singleton] at h
      subst h
      refine ⟨by norm_num, ?_⟩
      intro cmd hc
      cases hc

/-! ## C7: the orbit predictor -/

/-- C7: `predict_orbit` is total and reports: for a finite semi-major axis
`a`, when `eccentricity < 1` and `a > 0` the apsides are
`a(1±e) - radius`; otherwise (including the parabolic `INFINITY` case) the
apoapsis is the sentinel `-1` and the periapsis falls back to the current
altitude; and in all cases `is_stable` holds exactly when
`periapsis > atmosphere_height` and `eccentricity < 1`. -/
theorem C7_predict_orbit_spec (s : RocketState) (planet : PlanetConfig) :
    (∀ a, orbit_semimajor s planet = some a →
      (orbit_ecc s planet < 1 ∧ 0 < a →
        (predict_orbit s planet).apoapsis
          = a * (1 + orbit_ecc s planet) - planet.radius ∧
        (predict_orbit s planet).periapsis
          = a * (1 - orbit_ecc s planet) - planet.radius) ∧
      (¬(orbit_ecc s planet < 1 ∧ 0 < a) →
        (predict_orbit s planet).apoapsis = -1 ∧
        (predict_orbit s planet).periapsis = s.altitude)) ∧
    (orbit_semimajor s planet = none →
      (predict_orbit s planet).eccentricity = 1 ∧
      (predict_orbit s planet).apoapsis = -1 ∧
      (predict_orbit s planet).periapsis = s.altitude) ∧
    ((predict_orbit s planet).is_stable = true ↔
      (predict_orbit s planet).periapsis > planet.atmosphere_height ∧
      (predict_orbit s planet).eccentricity < 1) := by
  refine ⟨?_, ?_, ?_⟩
  · intro a ha
    constructor
    · intro hcl
      simp only [predict_orbit, ha]
      rw [if_pos ⟨hcl.1, hcl.2⟩]
      exact ⟨rfl, rfl⟩
    · intro hncl
      simp only [predict_orbit, ha]
      rw [if_neg (fun hx => hncl ⟨hx.1, hx.2⟩)]
      exact ⟨rfl, rfl⟩
  · intro hnone
    have hecc : orbit_ecc s planet = 1 := by simp [orbit_ecc, hnone]
    refine ⟨hecc, ?_, ?_⟩ <;> simp [predict_orbit, hnone]
  · cases hsm : orbit_semimajor s planet with
    | none => simp only [predict_orbit, hsm]; exact bool_ite_eq_true_iff _
    | some a => simp only [predict_orbit, hsm]; exact bool_ite_eq_true_iff _

/-- A planet small and heavy enough for simple orbit numbers. -/
def smallPlanet : PlanetConfig := ⟨0.5, 1e12, 0.25, 1, 1⟩

/-- A state on a hyperbolic trajectory around `smallPlanet`. -/
def hyperbolicState : RocketState :=
  { position := ⟨1, 0, 0⟩, velocity := ⟨0, 100, 0⟩, acceleration := ⟨0, 0, 0⟩,
    altitude := 0.5, speed := 100, mass_current := 1, fuel_remaining := 0,
    in_orbit := false, landed := false, crashed := false, time := 0 }

/-- Witness for C7: on a concrete hyperbolic state the semi-major axis is
finite and negative, so the predictor reports the sentinel apsides. -/
theorem C7_predict_orbit_spec_witness :
    orbit_semimajor hyperbolicState smallPlanet = some (-66.74 / 9866.52) ∧
    (predict_orbit hyperbolicState smallPlanet).apoapsis = -1 ∧
    (predict_orbit hyperbolicState smallPlanet).periapsis = 0.5 := by
  have hmag : vector_magnitude hyperbolicState.position = 1 := by
    have := magnitude_axis_x 1 (by norm_num)
    simpa [hyperbolicState] using this
  have he : orbit_energy hyperbolicState smallPlanet = 4933.26 := by
    unfold orbit_energy
    rw [hmag]
    norm_num [hyperbolicState, smallPlanet, G_CONSTANT]
  have hsm : orbit_semimajor hyperbolicState smallPlanet = some (-66.74 / 9866.52) := by
    unfold orbit_semimajor
    rw [he,
      if_neg (by rw [abs_of_pos (by norm_num : (0:ℝ) < 4933.26)]; norm_num)]
    norm_num [smallPlanet, G_CONSTANT]
  have hmain := ((C7_predict_orbit_spec hyperbolicState smallPlanet).1
    (-66.74 / 9866.52) hsm).2 (by intro hx; have := hx.2; norm_num at this)
  exact ⟨hsm, hmain.1, hmain.2⟩

/-! ## C6: the gravity-turn pitch ramp -/

/-- A planet with no atmosphere: `gravity_turn_for_orbit` then produces
`turn_start_alt = 1000 > 0 = turn_end_alt` for a zero target altitude. -/
def degeneratePlanet : PlanetConfig := ⟨1000, 1, 0, 0, 1⟩

/-- A state sitting at altitude 0. -/
def surfaceProbeState : RocketState :=
  { position := ⟨1000, 0, 0⟩, velocity := ⟨0, 0, 0⟩, acceleration := ⟨0, 0, 0⟩,
    altitude := 0, speed := 0, mass_current := 1, fuel_remaining := 0,
    in_orbit := false, landed := false, crashed := false, time := 0 }

/-- C6 counterexample: for `gravity_turn_for_orbit degeneratePlanet 0` the
turn ends at altitude 0 and starts at 1000; at altitude 0 (which is
`≥ turn_end_alt`) the claim demands pitch 90, but the code returns 0. -/
theorem C6_counterexample :
    (gravity_turn_for_orbit degeneratePlanet 0).turn_end_alt
      ≤ surfaceProbeState.altitude ∧
    calculate_optimal_pitch surfaceProbeState degeneratePlanet
      (gravity_turn_for_orbit degeneratePlanet 0) = 0 := by
  constructor
  · norm_num [gravity_turn_for_orbit, degeneratePlanet, surfaceProbeState]
  · norm_num [calculate_optimal_pitch, gravity_turn_for_orbit, degeneratePlanet,
      surfaceProbeState, max_def]

/-- C6 (amended): for a `GravityTurnConfig` produced by
`gravity_turn_for_orbit` whose ramp is nondegenerate
(`turn_start_alt < turn_end_alt`), the pitch is exactly 0 up to
`turn_start_alt`, exactly 90 from `turn_end_alt` on, follows
`sin(progress*pi/2) * 90` strictly in between, and is strictly increasing in
altitude on the ramp interval. -/
theorem C6_pitch_ramp (planet : PlanetConfig) (target : ℝ)
    (gt0 : GravityTurnConfig) (hgt : gt0 = gravity_turn_for_orbit planet target)
    (hlt : gt0.turn_start_alt < gt0.turn_end_alt) (s : RocketState) :
    gt0.auto_pitch = true ∧
    (s.altitude ≤ gt0.turn_start_alt → calculate_optimal_pitch s planet gt0 = 0) ∧
    (gt0.turn_end_alt ≤ s.altitude → calculate_optimal_pitch s planet gt0 = 90) ∧
    (gt0.turn_start_alt ≤ s.altitude → s.altitude < gt0.turn_end_alt →
      calculate_optimal_pitch s planet gt0 =
        Real.sin ((s.altitude - gt0.turn_start_alt) /
          (gt0.turn_end_alt - gt0.turn_start_alt) * Real.pi / 2) * 90) ∧
    StrictMonoOn
      (fun alt => calculate_optimal_pitch { s with altitude := alt } planet gt0)
      (Set.Icc gt0.turn_start_alt gt0.turn_end_alt) := by
  have hap : gt0.auto_pitch = true := by rw [hgt]; rfl
  set start := gt0.turn_start_alt with hstart
  set stop := gt0.turn_end_alt with hstop
  have hd : 0 < stop - start := sub_pos.mpr hlt
  -- the three evaluation clauses, for an arbitrary altitude value
  have h90 : ∀ x : ℝ, stop ≤ x →
      ∀ st : RocketState, st.altitude = x → calculate_optimal_pitch st planet gt0 = 90 := by
    intro x hx st hst
    simp only [calculate_optimal_pitch, hap, hst]
    rw [if_neg (by simp : ¬(true = false)), if_neg (not_lt.mpr (by linarith)),
      if_pos hx]
  have hformula : ∀ x : ℝ, start ≤ x → x < stop →
      ∀ st : RocketState, st.altitude = x → calculate_optimal_pitch st planet gt0 =
        Real.sin ((x - start) / (stop - start) * Real.pi / 2) * 90 := by
    intro x hx1 hx2 st hst
    simp only [calculate_optimal_pitch, hap, hst]
    rw [if_neg (by simp : ¬(true = false)), if_neg (not_lt.mpr hx1),
      if_neg (not_le.mpr hx2)]
  have h0 : ∀ x : ℝ, x ≤ start →
      ∀ st : RocketState, st.altitude = x → calculate_optimal_pitch st planet gt0 = 0 := by
    intro x hx st hst
    rcases lt_or_eq_of_le hx with hx' | hx'
    · simp only [calculate_optimal_pitch, hap, hst]
      rw [if_neg (by simp : ¬(true = false)), if_pos hx']
    · rw [hformula x (le_of_eq hx'.symm) (by rw [hx']; exact hlt) st hst, hx']
      rw [sub_self, zero_div, zero_mul, zero_div, Real.sin_zero, zero_mul]
  -- bounds for the ramp angle
  have hangle : ∀ x : ℝ, start ≤ x → x ≤ stop →
      0 ≤ (x - start) / (stop - start) * Real.pi / 2 ∧
      (x - start) / (stop - start) * Real.pi / 2 ≤ Real.pi / 2 := by
    intro x hx1 hx2
    have hp0 : 0 ≤ (x - start) / (stop - start) :=
      div_nonneg (by linarith) (le_of_lt hd)
    have hp1 : (x - start) / (stop - start) ≤ 1 := by
      rw [div_le_one hd]; linarith
    have hpi := Real.pi_pos
    constructor
    · positivity
    · nlinarith
  have hangle_lt : ∀ x : ℝ, x < stop →
      (x - start) / (stop - start) * Real.pi / 2 < Real.pi / 2 := by
    intro x hx
    have hp1 : (x - start) / (stop - start) < 1 := by
      rw [div_lt_one hd]; linarith
    have hpi := Real.pi_pos
    nlinarith
  have hangle_mono : ∀ a b : ℝ, a < b →
      (a - start) / (stop - start) * Real.pi / 2 <
      (b - start) / (stop - start) * Real.pi / 2 := by
    intro a b hab
    have h2 : (a - start) / (stop - start) < (b - start) / (stop - start) :=
      div_lt_div_iff_of_pos_right hd |>.mpr (by linarith)
    nlinarith [mul_pos (sub_pos.mpr h2) Real.pi_pos]
  refine ⟨hap, fun hx => h0 s.altitude hx s rfl, fun hx => h90 s.altitude hx s rfl,
    fun hx1 hx2 => hformula s.altitude hx1 hx2 s rfl, ?_⟩
  intro a ha b hb hab
  simp only
  have hpi := Real.pi_pos
  rcases lt_or_ge b stop with hbs | hbs
  · have has : a < stop := lt_trans hab hbs
    rw [hformula a ha.1 has _ rfl, hformula b hb.1 hbs _ rfl]
    have hA := hangle a ha.1 (le_of_lt has)
    have hB := hangle b hb.1 (le_of_lt hbs)
    have hm := hangle_mono a b hab
    have hsin := Real.strictMonoOn_sin
      (Set.mem_Icc.mpr ⟨by linarith [hA.1], hA.2⟩)
      (Set.mem_Icc.mpr ⟨by linarith [hB.1], hB.2⟩) hm
    nlinarith [hsin]
  · have hbstop : b = stop := le_antisymm hb.2 hbs
    have has : a < stop := hbstop ▸ hab
    rw [hformula a ha.1 has _ rfl, h90 b hbs _ rfl]
    have hA := hangle a ha.1 (le_of_lt has)
    have hm := hangle_lt a has
    have hsin := Real.strictMonoOn_sin
      (Set.mem_Icc.mpr ⟨by linarith [hA.1], hA.2⟩)
      (Set.mem_Icc.mpr ⟨by linarith, le_refl _⟩) hm
    rw [Real.sin_pi_div_two] at hsin
    nlinarith [hsin]

/-- Witness for C6: the Earth default planet with a 200 km target orbit has
a nondegenerate ramp (2000 m to 140000 m): the pitch is 0 at the surface, 90
at the ramp end, and strictly larger at 100 km than at 50 km. -/
theorem C6_pitch_ramp_witness :
    calculate_optimal_pitch surfaceProbeState planet_earth_default
      (gravity_turn_for_orbit planet_earth_default 200000) = 0 ∧
    calculate_optimal_pitch { surfaceProbeState with altitude := 140000 }
      planet_earth_default (gravity_turn_for_orbit planet_earth_default 200000) = 90 ∧
    calculate_optimal_pitch { surfaceProbeState with altitude := 50000 }
      planet_earth_default (gravity_turn_for_orbit planet_earth_default 200000) <
      calculate_optimal_pitch { surfaceProbeState with altitude := 100000 }
        planet_earth_default (gravity_turn_for_orbit planet_earth_default 200000) := by
  have hstart : (gravity_turn_for_orbit planet_earth_default 200000).turn_start_alt
      = 2000 := by
    norm_num [gravity_turn_for_orbit, planet_earth_default, EARTH_ATMOSPHERE, max_def]
  have hstop : (gravity_turn_for_orbit planet_earth_default 200000).turn_end_alt
      = 140000 := by
    norm_num [gravity_turn_for_orbit, planet_earth_default, EARTH_ATMOSPHERE]
  have hlt : (gravity_turn_for_orbit planet_earth_default 200000).turn_start_alt <
      (gravity_turn_for_orbit planet_earth_default 200000).turn_end_alt := by
    rw [hstart, hstop]; norm_num
  refine ⟨(C6_pitch_ramp planet_earth_default 200000 _ rfl hlt
      surfaceProbeState).2.1 (by rw [hstart]; norm_num [surfaceProbeState]), ?_, ?_⟩
  · exact (C6_pitch_ramp planet_earth_default 200000 _ rfl hlt
      { surfaceProbeState with altitude := 140000 }).2.2.1 (by rw [hstop])
  · exact (C6_pitch_ramp planet_earth_default 200000 _ rfl hlt
      surfaceProbeState).2.2.2.2
      (Set.mem_Icc.mpr ⟨by rw [hstart]; norm_num, by rw [hstop]; norm_num⟩)
      (Set.mem_Icc.mpr ⟨by rw [hstart]; norm_num, by rw [hstop]; norm_num⟩)
      (by norm_num)

/-! ## C3: the drag model -/

/-- C3 (amended): the planet-aware drag obeys the claim: it is zero outside
the band `0 < altitude < atmosphere_height`, zero for speeds up to `1e-6`,
and inside the band for larger speeds it opposes the velocity with magnitude
`0.5*rho*v^2*Cd*A`, `rho = surface_pressure * 1.225 * exp(-alt/scale_height)`.
The Earth-fixed `calculate_drag`, however, has no lower altitude bound: it is
zero for `altitude > EARTH_ATMOSPHERE` or speed `< 1e-6`, and otherwise —
including at altitudes `≤ 0` — applies the same formula with surface
pressure 1 and scale height 8500. -/
theorem C3_drag_spec (s : RocketState) (config : RocketConfig)
    (planet : PlanetConfig) :
    (¬(0 < s.altitude ∧ s.altitude < planet.atmosphere_height) →
      drag_with_planet s config planet = ⟨0, 0, 0⟩) ∧
    (vector_magnitude s.velocity ≤ 1e-6 →
      drag_with_planet s config planet = ⟨0, 0, 0⟩) ∧
    (0 < s.altitude → s.altitude < planet.atmosphere_height →
      1e-6 < vector_magnitude s.velocity →
      drag_with_planet s config planet =
        vector_scale (vector_normalize s.velocity)
          (-(0.5 * (planet.surface_pressure * 1.225 *
              Real.exp (-s.altitude / planet.scale_height)) *
            vector_magnitude s.velocity * vector_magnitude s.velocity *
            config.drag_coefficient * config.cross_section))) ∧
    (EARTH_ATMOSPHERE < s.altitude → calculate_drag s config = ⟨0, 0, 0⟩) ∧
    (vector_magnitude s.velocity < 1e-6 → calculate_drag s config = ⟨0, 0, 0⟩) ∧
    (s.altitude ≤ EARTH_ATMOSPHERE → 1e-6 ≤ vector_magnitude s.velocity →
      calculate_drag s config =
        vector_scale (vector_normalize s.velocity)
          (-(0.5 * (1.225 * Real.exp (-s.altitude / 8500)) *
            vector_magnitude s.velocity * vector_magnitude s.velocity *
            config.drag_coefficient * config.cross_section))) := by
  refine ⟨?_, ?_, ?_, ?_, ?_, ?_⟩
  · intro hn
    simp only [drag_with_planet]
    rw [if_neg (fun hx => hn ⟨hx.2, hx.1⟩)]
  · intro hv
    simp only [drag_with_planet]
    split_ifs with h1 h2
    all_goals first | rfl | linarith
  · intro h1 h2 h3
    simp only [drag_with_planet]
    rw [if_pos ⟨h2, h1⟩, if_pos h3]
  · intro h
    simp only [calculate_drag]
    rw [if_pos h]
  · intro hv
    simp only [calculate_drag]
    split_ifs with h1 h2
    all_goals first | rfl | linarith
  · intro h1 h2
    simp only [calculate_drag]
    rw [if_neg (not_lt.mpr h1), if_neg (not_lt.mpr h2)]

/-- A state below the surface (altitude -1000) moving at 10 m/s. -/
def belowGroundState : RocketState :=
  { position := ⟨6370000, 0, 0⟩, velocity := ⟨10, 0, 0⟩, acceleration := ⟨0, 0, 0⟩,
    altitude := -1000, speed := 10, mass_current := 1, fuel_remaining := 0,
    in_orbit := false, landed := false, crashed := false, time := 0 }

/-- C3 counterexample: at altitude -1000, outside the claimed band
`0 < altitude < atmosphere_height`, the Earth-fixed `calculate_drag` still
returns a nonzero force (negative x component against the motion). -/
theorem C3_counterexample :
    belowGroundState.altitude ≤ 0 ∧
    (calculate_drag belowGroundState sampleConfig).x < 0 := by
  have hmag : vector_magnitude belowGroundState.velocity = 10 := by
    have h := magnitude_axis_x 10 (by norm_num)
    simpa [belowGroundState] using h
  have halt : belowGroundState.altitude = (-1000 : ℝ) := rfl
  refine ⟨by norm_num [belowGroundState], ?_⟩
  have hnorm : vector_normalize belowGroundState.velocity = ⟨1, 0, 0⟩ := by
    unfold vector_normalize
    rw [hmag, if_neg (by norm_num)]
    show vector_scale belowGroundState.velocity (1 / 10) = _
    norm_num [vector_scale, belowGroundState]
  simp only [calculate_drag, hmag, halt]
  rw [if_neg (by norm_num [EARTH_ATMOSPHERE]), if_neg (by norm_num), hnorm]
  simp only [vector_scale, one_mul]
  rw [neg_lt_zero]
  have hexp := Real.exp_pos (-(-1000 : ℝ) / 8500)
  simp only [sampleConfig]
  positivity

/-- A state well above the atmosphere. -/
def highAltState : RocketState :=
  { position := ⟨6571000, 0, 0⟩, velocity := ⟨0, 0, 0⟩, acceleration := ⟨0, 0, 0⟩,
    altitude := 200000, speed := 0, mass_current := 1, fuel_remaining := 0,
    in_orbit := false, landed := false, crashed := false, time := 0 }

/-- Witness for C3: above the atmosphere both drag computations vanish. -/
theorem C3_drag_spec_witness :
    drag_with_planet highAltState sampleConfig planet_earth_default = ⟨0, 0, 0⟩ ∧
    calculate_drag highAltState sampleConfig = ⟨0, 0, 0⟩ :=
  ⟨(C3_drag_spec highAltState sampleConfig planet_earth_default).1
      (by intro hx
          norm_num [highAltState, planet_earth_default, EARTH_ATMOSPHERE] at hx),
   (C3_drag_spec highAltState sampleConfig planet_earth_default).2.2.2.1
      (by norm_num [highAltState, EARTH_ATMOSPHERE])⟩

/-! ## C8: the pole-frame fallback in calculate_thrust -/

/-- C8 (amended): for a position on the global Z axis whose magnitude is at
least the `1e-10` normalize threshold, and a config/command with total
commanded thrust at least `1e-6`, `calculate_thrust` returns a nonzero
vector: the degenerate east vector built from the Z axis is detected
(magnitude < 0.01) and the frame is rebuilt from the X axis. -/
theorem C8_pole_fallback (config : RocketConfig) (command : Option ControlCommand)
    (z : ℝ) (hz : 1e-10 ≤ |z|) (hth : 1e-6 ≤ thrust_sum config command) :
    calculate_thrust config command ⟨0, 0, z⟩ ≠ ⟨0, 0, 0⟩ := by
  rcases command with _ | cmd
  · simp [thrust_sum] at hth; norm_num at hth
  rcases hthr : cmd.engine_throttle with _ | th
  · simp [thrust_sum, hthr] at hth; norm_num at hth
  have hM : 1e-6 ≤ engine_thrust_total config.engines th := by
    simpa [thrust_sum, hthr] using hth
  have hMpos : 0 < engine_thrust_total config.engines th := lt_of_lt_of_le (by norm_num) hM
  have hzabs : (0:ℝ) < |z| := lt_of_lt_of_le (by norm_num) hz
  have hzne : z ≠ 0 := fun h => by rw [h] at hzabs; simp at hzabs
  have hmagz : vector_magnitude ⟨0, 0, z⟩ = |z| := by
    unfold vector_magnitude
    rw [show ((0:ℝ) * 0 + 0 * 0 + z * z : ℝ) = z * z by ring]
    exact Real.sqrt_mul_self_eq_abs z
  have hru : vector_normalize ⟨0, 0, z⟩ = ⟨0, 0, z / |z|⟩ := by
    unfold vector_normalize
    rw [hmagz, if_neg (not_lt.mpr hz)]
    simp [vector_scale, div_eq_mul_inv, one_div]
  have hwsq : z / |z| * (z / |z|) = 1 := by
    rw [div_mul_div_comm, abs_mul_abs_self, div_self (mul_ne_zero hzne hzne)]
  have hwne : z / |z| ≠ 0 := div_ne_zero hzne (ne_of_gt hzabs)
  have heast0 : vector_cross ⟨0, 0, z / |z|⟩ ⟨0, 0, 1⟩ = ⟨0, 0, 0⟩ := by
    simp [vector_cross]
  have hzeromag : vector_magnitude ⟨0, 0, 0⟩ = 0 := by
    unfold vector_magnitude
    norm_num
  have heast1 : vector_cross ⟨0, 0, z / |z|⟩ ⟨1, 0, 0⟩ = ⟨0, z / |z|, 0⟩ := by
    simp [vector_cross]
  have hmage : vector_magnitude ⟨0, z / |z|, 0⟩ = 1 := by
    unfold vector_magnitude
    rw [show ((0:ℝ) * 0 + z / |z| * (z / |z|) + 0 * 0 : ℝ) = z / |z| * (z / |z|) by
      ring]
    rw [hwsq, Real.sqrt_one]
  have hne : vector_normalize ⟨0, z / |z|, 0⟩ = ⟨0, z / |z|, 0⟩ := by
    unfold vector_normalize
    rw [hmage, if_neg (by norm_num)]
    simp [vector_scale]
  simp only [calculate_thrust, hthr]
  rw [if_neg (not_lt.mpr hM), hru, heast0]
  rw [if_pos (by rw [hzeromag]; norm_num), heast1, hne]
  intro hcon
  simp only [vector_scale, Vector3.mk.injEq, zero_mul, zero_add, add_zero] at hcon
  obtain ⟨-, h2, h3⟩ := hcon
  have hMne : engine_thrust_total config.engines th ≠ 0 := ne_of_gt hMpos
  have hsin : Real.sin (cmd.pitch * Real.pi / 180) = 0 := by
    rcases mul_eq_zero.mp h2 with h | h
    · rcases mul_eq_zero.mp h with h' | h'
      · exact absurd h' hwne
      · exact h'
    · exact absurd h hMne
  have hcos : Real.cos (cmd.pitch * Real.pi / 180) = 0 := by
    rcases mul_eq_zero.mp h3 with h | h
    · rcases mul_eq_zero.mp h with h' | h'
      · exact absurd h' hwne
      · exact h'
    · exact absurd h hMne
  have hpy := Real.sin_sq_add_cos_sq (cmd.pitch * Real.pi / 180)
  rw [hsin, hcos] at hpy
  norm_num at hpy

/-- C8 counterexample: the position `(0,0,1e-11)` is nonzero and aligned
with the Z axis and the commanded thrust is 500 N, yet `calculate_thrust`
returns the zero vector: the position is below the `1e-10` normalize
threshold, so the whole frame (including the X-axis fallback) degenerates. -/
theorem C8_counterexample :
    (1e-11 : ℝ) ≠ 0 ∧
    (1e-6 : ℝ) ≤ thrust_sum sampleConfig (some sampleCommand) ∧
    calculate_thrust sampleConfig (some sampleCommand) ⟨0, 0, 1e-11⟩ = ⟨0, 0, 0⟩ := by
  refine ⟨by norm_num, ?_, ?_⟩
  · norm_num [thrust_sum, sampleCommand, sampleConfig, engine_thrust_total]
  · have hmag : vector_magnitude ⟨0, 0, (1e-11:ℝ)⟩ = 1e-11 := by
      unfold vector_magnitude
      rw [show ((0:ℝ) * 0 + 0 * 0 + 1e-11 * 1e-11 : ℝ) = 1e-11 * 1e-11 by ring]
      exact Real.sqrt_mul_self (by norm_num)
    have hnz : vector_normalize ⟨0, 0, (1e-11:ℝ)⟩ = ⟨0, 0, 0⟩ := by
      unfold vector_normalize
      rw [hmag, if_pos (by norm_num)]
    have hm500 : engine_thrust_total sampleConfig.engines [1] = 500 := by
      norm_num [engine_thrust_total, sampleConfig]
    have hc1 : vector_cross ⟨0, 0, 0⟩ ⟨0, 0, 1⟩ = (⟨0, 0, 0⟩ : Vector3) := by
      simp [vector_cross]
    have hc2 : vector_cross ⟨0, 0, 0⟩ ⟨1, 0, 0⟩ = (⟨0, 0, 0⟩ : Vector3) := by
      simp [vector_cross]
    have hn0 : vector_normalize ⟨0, 0, 0⟩ = (⟨0, 0, 0⟩ : Vector3) := by
      unfold vector_normalize
      rw [magnitude_zero_vec, if_pos (by norm_num)]
    show calculate_thrust sampleConfig (some sampleCommand) ⟨0, 0, 1e-11⟩ = ⟨0, 0, 0⟩
    simp only [calculate_thrust, sampleCommand]
    rw [hm500, if_neg (by norm_num), hnz, hc1,
      if_pos (by rw [magnitude_zero_vec]; norm_num), hc2, hn0]
    simp [vector_scale]

/-- Witness for C8 at the north pole of the Earth default planet. -/
theorem C8_pole_fallback_witness :
    calculate_thrust sampleConfig (some sampleCommand) ⟨0, 0, EARTH_RADIUS⟩
      ≠ ⟨0, 0, 0⟩ :=
  C8_pole_fallback sampleConfig (some sampleCommand) EARTH_RADIUS
    (by rw [abs_of_pos (by norm_num [EARTH_RADIUS])]; norm_num [EARTH_RADIUS])
    (by norm_num [thrust_sum, sampleCommand, sampleConfig, engine_thrust_total])

/-! ## C5: ground classification at the surface -/

/-- C5 (amended): applying a step with `delta_time = 0` to a non-terminal
state exactly at the surface: post-update speed 4.9 lands, 5.1 crashes,
velocity and acceleration are zeroed, and the orbit flag is left untouched —
for `rocket_update_with_planet` at `|position| = planet.radius` and for
`rocket_update` at `|position| = EARTH_RADIUS`. -/
theorem C5_ground_classification (state : RocketState) (config : RocketConfig)
    (command : Option ControlCommand) (planet : PlanetConfig)
    (hl : state.landed = false) (hc : state.crashed = false) :
    (vector_magnitude state.position = planet.radius →
      (vector_magnitude state.velocity = 4.9 →
        (rocket_update_with_planet state config command planet 0).landed = true ∧
        (rocket_update_with_planet state config command planet 0).crashed = false ∧
        (rocket_update_with_planet state config command planet 0).velocity = ⟨0, 0, 0⟩ ∧
        (rocket_update_with_planet state config command planet 0).acceleration = ⟨0, 0, 0⟩ ∧
        (rocket_update_with_planet state config command planet 0).in_orbit = state.in_orbit) ∧
      (vector_magnitude state.velocity = 5.1 →
        (rocket_update_with_planet state config command planet 0).crashed = true ∧
        (rocket_update_with_planet state config command planet 0).landed = false ∧
        (rocket_update_with_planet state config command planet 0).velocity = ⟨0, 0, 0⟩ ∧
        (rocket_update_with_planet state config command planet 0).acceleration = ⟨0, 0, 0⟩ ∧
        (rocket_update_with_planet state config command planet 0).in_orbit = state.in_orbit)) ∧
    (vector_magnitude state.position = EARTH_RADIUS →
      (vector_magnitude state.velocity = 4.9 →
        (rocket_update state config command 0).landed = true ∧
        (rocket_update state config command 0).crashed = false ∧
        (rocket_update state config command 0).velocity = ⟨0, 0, 0⟩ ∧
        (rocket_update state config command 0).acceleration = ⟨0, 0, 0⟩ ∧
        (rocket_update state config command 0).in_orbit = state.in_orbit) ∧
      (vector_magnitude state.velocity = 5.1 →
        (rocket_update state config command 0).crashed = true ∧
        (rocket_update state config command 0).landed = false ∧
        (rocket_update state config command 0).velocity = ⟨0, 0, 0⟩ ∧
        (rocket_update state config command 0).acceleration = ⟨0, 0, 0⟩ ∧
        (rocket_update state config command 0).in_orbit = state.in_orbit)) := by
  constructor
  · intro hpos
    constructor
    · intro hv
      refine ⟨?_, ?_, ?_, ?_, ?_⟩ <;>
      · simp only [rocket_update_with_planet, hl, hc, Bool.or_self,
          Bool.false_eq_true, if_false, vector_scale_zero, vector_add_zero_right,
          hpos, hv]
        rw [if_pos le_rfl, if_pos (by norm_num : (4.9:ℝ) < 5)]
    · intro hv
      refine ⟨?_, ?_, ?_, ?_, ?_⟩ <;>
      · simp only [rocket_update_with_planet, hl, hc, Bool.or_self,
          Bool.false_eq_true, if_false, vector_scale_zero, vector_add_zero_right,
          hpos, hv]
        rw [if_pos le_rfl, if_neg (by norm_num : ¬((5.1:ℝ) < 5))]
  · intro hpos
    constructor
    · intro hv
      refine ⟨?_, ?_, ?_, ?_, ?_⟩ <;>
      · simp only [rocket_update, hl, hc, Bool.or_self, Bool.false_eq_true,
          if_false, vector_scale_zero, vector_add_zero_right,
          check_ground_collision, hpos, hv]
        rw [if_pos le_rfl, if_pos (by norm_num : (4.9:ℝ) < 5)]
    · intro hv
      refine ⟨?_, ?_, ?_, ?_, ?_⟩ <;>
      · simp only [rocket_update, hl, hc, Bool.or_self, Bool.false_eq_true,
          if_false, vector_scale_zero, vector_add_zero_right,
          check_ground_collision, hpos, hv]
        rw [if_pos le_rfl, if_neg (by norm_num : ¬((5.1:ℝ) < 5))]

/-- A non-terminal state exactly at the Earth surface moving tangentially at
4.9 m/s. -/
def tangentialState : RocketState :=
  { position := ⟨6371000, 0, 0⟩, velocity := ⟨0, 4.9, 0⟩, acceleration := ⟨0, 0, 0⟩,
    altitude := 0, speed := 4.9, mass_current := 1, fuel_remaining := 0,
    in_orbit := false, landed := false, crashed := false, time := 0 }

/-- C5 counterexample: a non-terminal state exactly at
`|position| = planet.radius` with speed 4.9 does NOT land under a step with
`delta_time = 1`: the tangential motion carries it above the surface, so
`landed` stays false, against the claim's unconditional reading. -/
theorem C5_counterexample :
    vector_magnitude tangentialState.position = planet_earth_default.radius ∧
    vector_magnitude tangentialState.velocity = 4.9 ∧
    tangentialState.landed = false ∧ tangentialState.crashed = false ∧
    (rocket_update_with_planet tangentialState sampleConfig none
      planet_earth_default 1).landed = false := by
  have hpos : vector_magnitude tangentialState.position = EARTH_RADIUS := by
    have h := magnitude_axis_x EARTH_RADIUS (by norm_num [EARTH_RADIUS])
    simpa [tangentialState, EARTH_RADIUS] using h
  have hvel : vector_magnitude tangentialState.velocity = 4.9 := by
    have h := magnitude_axis_y 4.9 (by norm_num)
    simpa [tangentialState] using h
  refine ⟨by rw [hpos]; rfl, hvel, rfl, rfl, ?_⟩
  have hgrav : gravity_with_planet tangentialState.position planet_earth_default
      = ⟨0, 0, 0⟩ := by
    simp only [gravity_with_planet, planet_earth_default, hpos]
    rw [if_neg (lt_irrefl EARTH_RADIUS)]
  have hdrag : drag_with_planet tangentialState sampleConfig planet_earth_default
      = ⟨0, 0, 0⟩ := by
    simp only [drag_with_planet]
    rw [if_neg]
    intro h
    have h2 := h.2
    norm_num [tangentialState] at h2
  have hthrust : calculate_thrust sampleConfig none tangentialState.position
      = ⟨0, 0, 0⟩ := rfl
  simp only [rocket_update_with_planet, hgrav, hdrag, hthrust]
  rw [if_neg (by simp [tangentialState] :
    ¬((tangentialState.landed || tangentialState.crashed) = true))]
  rw [show vector_add (vector_add ⟨0, 0, 0⟩ ⟨0, 0, 0⟩) ⟨0, 0, 0⟩ = (⟨0, 0, 0⟩ : Vector3)
    from by simp [vector_add]]
  rw [show (if tangentialState.mass_current > 0 then
      vector_scale ⟨0, 0, 0⟩ (1 / tangentialState.mass_current)
      else (⟨0, 0, 0⟩ : Vector3)) = (⟨0, 0, 0⟩ : Vector3)
    from by split_ifs <;> simp [vector_scale]]
  rw [vector_scale_zero_vec, vector_add_zero_right]
  rw [show vector_add tangentialState.position (vector_scale tangentialState.velocity 1)
      = (⟨6371000, 4.9, 0⟩ : Vector3)
    from by simp [vector_add, vector_scale, tangentialState]]
  rw [if_neg (not_le.mpr (by
    show planet_earth_default.radius < vector_magnitude ⟨6371000, 4.9, 0⟩
    unfold vector_magnitude
    rw [show planet_earth_default.radius = (6371000 : ℝ) from rfl]
    rw [Real.lt_sqrt (by norm_num)]
    norm_num))]
  rfl

/-- Witness for C5: at the surface with tangential speed 4.9 and
`delta_time = 0`, both step functions land without crashing. -/
theorem C5_ground_classification_witness :
    (rocket_update_with_planet tangentialState sampleConfig (some sampleCommand)
      planet_earth_default 0).landed = true ∧
    (rocket_update_with_planet tangentialState sampleConfig (some sampleCommand)
      planet_earth_default 0).crashed = false ∧
    (rocket_update tangentialState sampleConfig (some sampleCommand) 0).landed = true ∧
    (rocket_update tangentialState sampleConfig (some sampleCommand) 0).crashed = false := by
  have hpos : vector_magnitude tangentialState.position = EARTH_RADIUS := by
    have h := magnitude_axis_x EARTH_RADIUS (by norm_num [EARTH_RADIUS])
    simpa [tangentialState, EARTH_RADIUS] using h
  have hvel : vector_magnitude tangentialState.velocity = 4.9 := by
    have h := magnitude_axis_y 4.9 (by norm_num)
    simpa [tangentialState] using h
  have h := C5_ground_classification tangentialState sampleConfig
    (some sampleCommand) planet_earth_default rfl rfl
  have hP := (h.1 (by rw [hpos]; rfl)).1 hvel
  have hE := (h.2 hpos).1 hvel
  exact ⟨hP.1, hP.2.1, hE.1, hE.2.1⟩

/-! ## C4: agreement of the two step functions -/

theorem gravity_agree (position : Vector3)
    (h : EARTH_RADIUS < vector_magnitude position) :
    gravity_with_planet position planet_earth_default = calculate_gravity position := by
  simp only [gravity_with_planet, calculate_gravity, planet_earth_default]
  rw [if_pos h, if_neg (not_lt.mpr (le_of_lt h))]

theorem drag_agree (s : RocketState) (config : RocketConfig)
    (halt0 : 0 < s.altitude) (haltA : s.altitude ≠ EARTH_ATMOSPHERE)
    (hvel : vector_magnitude s.velocity ≠ 1e-6) :
    drag_with_planet s config planet_earth_default = calculate_drag s config := by
  simp only [drag_with_planet, calculate_drag, planet_earth_default,
    EARTH_SCALE_HEIGHT, one_mul]
  rcases lt_or_gt_of_ne haltA with hlt | hgt
  · rw [if_pos ⟨hlt, halt0⟩, if_neg (not_lt.mpr (le_of_lt hlt))]
    rcases lt_or_gt_of_ne hvel with hv | hv
    · rw [if_neg (not_lt.mpr (le_of_lt hv)), if_pos hv]
    · rw [if_pos hv, if_neg (not_lt.mpr (le_of_lt hv))]
  · rw [if_neg (fun hx => absurd hgt (not_lt.mpr (le_of_lt hx.1))), if_pos hgt]

/-- C4 (amended): for states strictly above the surface
(`EARTH_RADIUS < |position|`), at a strictly positive stored altitude other
than exactly `EARTH_ATMOSPHERE`, and with speed not exactly `1e-6`, the
Earth-fixed `rocket_update` and
`rocket_update_with_planet … planet_earth_default` produce the same
resulting state on every field except possibly `in_orbit` (whose two
heuristics genuinely differ). -/
theorem C4_step_agreement (state : RocketState) (config : RocketConfig)
    (command : Option ControlCommand) (delta_time : ℝ)
    (hpos : EARTH_RADIUS < vector_magnitude state.position)
    (halt0 : 0 < state.altitude) (haltA : state.altitude ≠ EARTH_ATMOSPHERE)
    (hvel : vector_magnitude state.velocity ≠ 1e-6) :
    (rocket_update state config command delta_time).position =
      (rocket_update_with_planet state config command planet_earth_default
        delta_time).position ∧
    (rocket_update state config command delta_time).velocity =
      (rocket_update_with_planet state config command planet_earth_default
        delta_time).velocity ∧
    (rocket_update state config command delta_time).acceleration =
      (rocket_update_with_planet state config command planet_earth_default
        delta_time).acceleration ∧
    (rocket_update state config command delta_time).altitude =
      (rocket_update_with_planet state config command planet_earth_default
        delta_time).altitude ∧
    (rocket_update state config command delta_time).speed =
      (rocket_update_with_planet state config command planet_earth_default
        delta_time).speed ∧
    (rocket_update state config command delta_time).mass_current =
      (rocket_update_with_planet state config command planet_earth_default
        delta_time).mass_current ∧
    (rocket_update state config command delta_time).fuel_remaining =
      (rocket_update_with_planet state config command planet_earth_default
        delta_time).fuel_remaining ∧
    (rocket_update state config command delta_time).landed =
      (rocket_update_with_planet state config command planet_earth_default
        delta_time).landed ∧
    (rocket_update state config command delta_time).crashed =
      (rocket_update_with_planet state config command planet_earth_default
        delta_time).crashed ∧
    (rocket_update state config command delta_time).time =
      (rocket_update_with_planet state config command planet_earth_default
        delta_time).time := by
  have hG := gravity_agree state.position hpos
  have hD := drag_agree state config halt0 haltA hvel
  have hkey : rocket_update state config command delta_time =
      { rocket_update_with_planet state config command planet_earth_default
          delta_time with
        in_orbit := (rocket_update state config command delta_time).in_orbit } := by
    simp only [rocket_update, rocket_update_with_planet, hG, hD,
      check_ground_collision,
      show planet_earth_default.radius = EARTH_RADIUS from rfl]
    split_ifs <;> rfl
  refine ⟨?_, ?_, ?_, ?_, ?_, ?_, ?_, ?_, ?_, ?_⟩ <;> rw [hkey]

/-- A non-terminal state resting exactly on the surface. -/
def surfaceRestState : RocketState :=
  { position := ⟨6371000, 0, 0⟩, velocity := ⟨0, 0, 0⟩, acceleration := ⟨0, 0, 0⟩,
    altitude := 0, speed := 0, mass_current := 1, fuel_remaining := 0,
    in_orbit := false, landed := false, crashed := false, time := 0 }

/-- C4 counterexample: started exactly at `|position| = EARTH_RADIUS` at
rest, the Earth-fixed step still applies gravity (its test is
`distance < radius`) and the impact speed `G*M/R^2 ≈ 9.8 > 5` crashes the
vehicle, while the planet step applies no gravity (its test is
`distance > radius`) and lands it; the two functions disagree on the same
input. -/
theorem C4_counterexample :
    (rocket_update surfaceRestState sampleConfig none 1).crashed = true ∧
    (rocket_update_with_planet surfaceRestState sampleConfig none
      planet_earth_default 1).crashed = false ∧
    (rocket_update surfaceRestState sampleConfig none 1).landed = false ∧
    (rocket_update_with_planet surfaceRestState sampleConfig none
      planet_earth_default 1).landed = true ∧
    rocket_update surfaceRestState sampleConfig none 1 ≠
      rocket_update_with_planet surfaceRestState sampleConfig none
        planet_earth_default 1 := by
  have hposmag : vector_magnitude surfaceRestState.position = EARTH_RADIUS := by
    have h := magnitude_axis_x EARTH_RADIUS (by norm_num [EARTH_RADIUS])
    simpa [surfaceRestState, EARTH_RADIUS] using h
  have hvel0 : surfaceRestState.velocity = (⟨0, 0, 0⟩ : Vector3) := rfl
  have hterm : ¬((surfaceRestState.landed || surfaceRestState.crashed) = true) := by
    simp [surfaceRestState]
  -- the Earth-fixed step
  have hnormR : vector_normalize surfaceRestState.position = ⟨1, 0, 0⟩ := by
    unfold vector_normalize
    rw [hposmag, if_neg (by norm_num [EARTH_RADIUS])]
    show vector_scale surfaceRestState.position (1 / EARTH_RADIUS) = _
    norm_num [vector_scale, surfaceRestState, EARTH_RADIUS]
  have hgravE : calculate_gravity surfaceRestState.position =
      ⟨-(G_CONSTANT * EARTH_MASS / (EARTH_RADIUS * EARTH_RADIUS)), 0, 0⟩ := by
    simp only [calculate_gravity, hposmag]
    rw [if_neg (lt_irrefl EARTH_RADIUS), hnormR]
    simp [vector_scale]
  have hdragE : calculate_drag surfaceRestState sampleConfig = ⟨0, 0, 0⟩ := by
    simp only [calculate_drag]
    rw [if_neg (by norm_num [surfaceRestState, EARTH_ATMOSPHERE]), hvel0,
      magnitude_zero_vec, if_pos (by norm_num)]
  have hthrE : calculate_thrust sampleConfig none surfaceRestState.position
      = ⟨0, 0, 0⟩ := rfl
  have hcE : (rocket_update surfaceRestState sampleConfig none 1).crashed = true ∧
      (rocket_update surfaceRestState sampleConfig none 1).landed = false := by
    simp only [rocket_update, hgravE, hdragE, hthrE]
    rw [if_neg hterm]
    rw [show vector_add (vector_add
        ⟨-(G_CONSTANT * EARTH_MASS / (EARTH_RADIUS * EARTH_RADIUS)), 0, 0⟩
        ⟨0, 0, 0⟩) ⟨0, 0, 0⟩ =
        (⟨-(G_CONSTANT * EARTH_MASS / (EARTH_RADIUS * EARTH_RADIUS)), 0, 0⟩ : Vector3)
      from by simp [vector_add]]
    rw [if_pos (by norm_num [surfaceRestState] : surfaceRestState.mass_current > 0)]
    rw [show vector_scale
        ⟨-(G_CONSTANT * EARTH_MASS / (EARTH_RADIUS * EARTH_RADIUS)), 0, 0⟩
        (1 / surfaceRestState.mass_current) =
        (⟨-(G_CONSTANT * EARTH_MASS / (EARTH_RADIUS * EARTH_RADIUS)), 0, 0⟩ : Vector3)
      from by norm_num [vector_scale, surfaceRestState]]
    rw [show vector_add surfaceRestState.velocity (vector_scale
        ⟨-(G_CONSTANT * EARTH_MASS / (EARTH_RADIUS * EARTH_RADIUS)), 0, 0⟩ 1) =
        (⟨-(G_CONSTANT * EARTH_MASS / (EARTH_RADIUS * EARTH_RADIUS)), 0, 0⟩ : Vector3)
      from by norm_num [vector_add, vector_scale, surfaceRestState]]
    rw [show vector_add surfaceRestState.position (vector_scale
        ⟨-(G_CONSTANT * EARTH_MASS / (EARTH_RADIUS * EARTH_RADIUS)), 0, 0⟩ 1) =
        (⟨EARTH_RADIUS - G_CONSTANT * EARTH_MASS / (EARTH_RADIUS * EARTH_RADIUS),
          0, 0⟩ : Vector3)
      from by
        norm_num [vector_add, vector_scale, surfaceRestState, EARTH_RADIUS]
        ring]
    rw [show vector_magnitude
        ⟨EARTH_RADIUS - G_CONSTANT * EARTH_MASS / (EARTH_RADIUS * EARTH_RADIUS),
          0, 0⟩ =
        EARTH_RADIUS - G_CONSTANT * EARTH_MASS / (EARTH_RADIUS * EARTH_RADIUS)
      from magnitude_axis_x _ (by
        norm_num [EARTH_RADIUS, EARTH_MASS, G_CONSTANT])]
    rw [show vector_magnitude
        ⟨-(G_CONSTANT * EARTH_MASS / (EARTH_RADIUS * EARTH_RADIUS)), 0, 0⟩ =
        G_CONSTANT * EARTH_MASS / (EARTH_RADIUS * EARTH_RADIUS)
      from by
        unfold vector_magnitude
        rw [show (-(G_CONSTANT * EARTH_MASS / (EARTH_RADIUS * EARTH_RADIUS)) *
            -(G_CONSTANT * EARTH_MASS / (EARTH_RADIUS * EARTH_RADIUS)) +
            0 * 0 + 0 * 0 : ℝ) =
            (G_CONSTANT * EARTH_MASS / (EARTH_RADIUS * EARTH_RADIUS)) *
            (G_CONSTANT * EARTH_MASS / (EARTH_RADIUS * EARTH_RADIUS)) by ring]
        exact Real.sqrt_mul_self
          (by norm_num [EARTH_RADIUS, EARTH_MASS, G_CONSTANT])]
    rw [if_pos (show check_ground_collision _ from by
      show vector_magnitude _ ≤ EARTH_RADIUS
      rw [show vector_magnitude
          ⟨EARTH_RADIUS - G_CONSTANT * EARTH_MASS / (EARTH_RADIUS * EARTH_RADIUS),
            0, 0⟩ =
          EARTH_RADIUS - G_CONSTANT * EARTH_MASS / (EARTH_RADIUS * EARTH_RADIUS)
        from magnitude_axis_x _ (by
          norm_num [EARTH_RADIUS, EARTH_MASS, G_CONSTANT])]
      norm_num [EARTH_RADIUS, EARTH_MASS, G_CONSTANT])]
    rw [if_neg (by norm_num [EARTH_RADIUS, EARTH_MASS, G_CONSTANT] :
      ¬(G_CONSTANT * EARTH_MASS / (EARTH_RADIUS * EARTH_RADIUS) < 5))]
    exact ⟨rfl, rfl⟩
  -- the planet-aware step
  have hgravP : gravity_with_planet surfaceRestState.position planet_earth_default
      = ⟨0, 0, 0⟩ := by
    simp only [gravity_with_planet, planet_earth_default, hposmag]
    rw [if_neg (lt_irrefl EARTH_RADIUS)]
  have hdragP : drag_with_planet surfaceRestState sampleConfig planet_earth_default
      = ⟨0, 0, 0⟩ := by
    simp only [drag_with_planet]
    rw [if_neg]
    intro h
    have h2 := h.2
    norm_num [surfaceRestState] at h2
  have hcP : (rocket_update_with_planet surfaceRestState sampleConfig none
        planet_earth_default 1).crashed = false ∧
      (rocket_update_with_planet surfaceRestState sampleConfig none
        planet_earth_default 1).landed = true := by
    simp only [rocket_update_with_planet, hgravP, hdragP, hthrE]
    rw [if_neg hterm]
    rw [show vector_add (vector_add ⟨0, 0, 0⟩ ⟨0, 0, 0⟩) ⟨0, 0, 0⟩ =
        (⟨0, 0, 0⟩ : Vector3) from by simp [vector_add]]
    rw [show (if surfaceRestState.mass_current > 0 then
        vector_scale ⟨0, 0, 0⟩ (1 / surfaceRestState.mass_current)
        else (⟨0, 0, 0⟩ : Vector3)) = (⟨0, 0, 0⟩ : Vector3)
      from by split_ifs <;> simp [vector_scale]]
    rw [vector_scale_zero_vec, vector_add_zero_right, hvel0, magnitude_zero_vec]
    rw [show vector_add surfaceRestState.position (vector_scale ⟨0, 0, 0⟩ 1) =
        surfaceRestState.position from by
      rw [vector_scale_zero_vec, vector_add_zero_right]]
    rw [hposmag]
    rw [if_pos (show EARTH_RADIUS ≤ planet_earth_default.radius from le_rfl)]
    rw [if_pos (by norm_num : (0:ℝ) < 5)]
    exact ⟨rfl, rfl⟩
  refine ⟨hcE.1, hcP.1, hcE.2, hcP.2, ?_⟩
  intro hcontra
  have h := congrArg RocketState.crashed hcontra
  rw [hcE.1, hcP.1] at h
  cases h

/-- Witness for C4 at a concrete airborne state above the atmosphere. -/
theorem C4_step_agreement_witness :
    (rocket_update highAltState sampleConfig (some sampleCommand) 1).position =
      (rocket_update_with_planet highAltState sampleConfig (some sampleCommand)
        planet_earth_default 1).position ∧
    (rocket_update highAltState sampleConfig (some sampleCommand) 1).landed =
      (rocket_update_with_planet highAltState sampleConfig (some sampleCommand)
        planet_earth_default 1).landed := by
  have hposmag : vector_magnitude highAltState.position = 6571000 := by
    have h := magnitude_axis_x 6571000 (by norm_num)
    simpa [highAltState] using h
  have hvel0 : vector_magnitude highAltState.velocity = 0 := by
    have : highAltState.velocity = (⟨0, 0, 0⟩ : Vector3) := rfl
    rw [this, magnitude_zero_vec]
  have h := C4_step_agreement highAltState sampleConfig (some sampleCommand) 1
    (by rw [hposmag]; norm_num [EARTH_RADIUS])
    (by norm_num [highAltState])
    (by norm_num [highAltState, EARTH_ATMOSPHERE])
    (by rw [hvel0]; norm_num)
  exact ⟨h.1, h.2.2.2.2.2.2.2.1⟩

end

end StarTrek
